import Mathlib

/-!
Shallow embedding of libgit2's `src/diff_output.c` (diff generation and
patch rendering engine): data model, binary classification, content
loading, the xdiff output adapter, the delta driver `git_diff_foreach`,
the compact and patch renderers, and the pairwise blob diff
`git_diff_blobs`.  External collaborators (object store, filesystem,
attribute system, the xdiff algorithm itself) are parameters of the
model; everything else is translated directly from the C source.
-/

namespace DiffOutput

/-- Modelled from the spec: error codes from the public header
`git2/common.h`, which is not part of the sources under scrutiny.
Success is zero, every error is negative. -/
def GIT_SUCCESS : Int := 0

/-- Modelled from the spec: the not-found error code (`no digits during
numeric parse`), a negative value distinct from the other codes. -/
def GIT_ENOTFOUND : Int := -3

/-- Modelled from the spec: the out-of-memory error code. -/
def GIT_ENOMEM : Int := -4

/-- Modelled from the spec: the operating-system / I/O error code
(symlink length mismatch and similar failures). -/
def GIT_EOSERR : Int := -5

/-- Modelled from the spec: per-side flag bits from the public header
`git2/diff.h` (not under the sources).  `GIT_DIFF_FILE_VALID_OID` marks
a definitive content identity; it is a single nonzero bit. -/
def GIT_DIFF_FILE_VALID_OID : Nat := 1

/-- Modelled from the spec: flag bit marking a path string owned by the delta. -/
def GIT_DIFF_FILE_FREE_PATH : Nat := 2

/-- Modelled from the spec: flag bit marking a side classified as binary. -/
def GIT_DIFF_FILE_BINARY : Nat := 4

/-- Modelled from the spec: flag bit marking a side classified as not binary. -/
def GIT_DIFF_FILE_NOT_BINARY : Nat := 8

/-- Modelled from the spec: flag bit marking heap-owned content (owns-heap-data). -/
def GIT_DIFF_FILE_FREE_DATA : Nat := 16

/-- Modelled from the spec: flag bit marking memory-mapped content (owns-mapped-data). -/
def GIT_DIFF_FILE_UNMAP_DATA : Nat := 32

/-- `BINARY_DIFF_FLAGS`: `GIT_DIFF_FILE_BINARY|GIT_DIFF_FILE_NOT_BINARY`. -/
def BINARY_DIFF_FLAGS : Nat := GIT_DIFF_FILE_BINARY ||| GIT_DIFF_FILE_NOT_BINARY

/-- Modelled from the spec: traversal option bits from `git2/diff.h`
(not under the sources); distinct single bits. -/
def GIT_DIFF_REVERSE : Nat := 1

/-- Modelled from the spec: option bit to include ignored deltas. -/
def GIT_DIFF_INCLUDE_IGNORED : Nat := 2

/-- Modelled from the spec: option bit to include untracked deltas. -/
def GIT_DIFF_INCLUDE_UNTRACKED : Nat := 4

/-- Modelled from the spec: option bit forcing text diffs. -/
def GIT_DIFF_FORCE_TEXT : Nat := 32

/-- Modelled from the spec: line-origin tags from `git2/diff.h` (not
under the sources); characters, as used by the patch renderer. -/
def GIT_DIFF_LINE_CONTEXT : Char := ' '

/-- Modelled from the spec: origin tag of an added line. -/
def GIT_DIFF_LINE_ADDITION : Char := '+'

/-- Modelled from the spec: origin tag of a deleted line. -/
def GIT_DIFF_LINE_DELETION : Char := '-'

/-- Modelled from the spec: origin tag of the add-side eof-newline marker line. -/
def GIT_DIFF_LINE_ADD_EOFNL : Char := '\n'

/-- Modelled from the spec: origin tag of the delete-side eof-newline marker line. -/
def GIT_DIFF_LINE_DEL_EOFNL : Char := '\x00'

/-- Modelled from the spec: line-kind tag of a file header output unit. -/
def GIT_DIFF_LINE_FILE_HDR : Char := 'F'

/-- Modelled from the spec: line-kind tag of a hunk header output unit. -/
def GIT_DIFF_LINE_HUNK_HDR : Char := 'H'

/-- Modelled from the spec: line-kind tag of a binary-files notice. -/
def GIT_DIFF_LINE_BINARY : Char := 'B'

/-- A content identity (`git_oid`), modelled as a natural number; the
all-zero id is the absent-sentinel recognized by `git_oid_iszero`. -/
abbrev git_oid := Nat

/-- `git_oid_iszero`: the identity is the absent-sentinel. -/
def git_oid_iszero (oid : git_oid) : Bool := oid == 0

/-- `git_oid_cmp`: zero exactly when the two identities are equal. -/
def git_oid_cmp (a b : git_oid) : Int := if a == b then 0 else 1

/-- One side of a delta (`git_diff_file`): identity, path, size, flag
bits and file mode. -/
structure git_diff_file where
  oid : git_oid
  path : String
  size : Int
  flags : Nat
  mode : Nat
deriving Repr, DecidableEq

/-- Delta status (`git_delta_t`). -/
inductive git_delta_t where
  | unmodified | added | deleted | modified
  | renamed | copied | ignored | untracked
deriving Repr, DecidableEq

/-- A file pair (`git_diff_delta`): status, both sides, the binary
tri-state (-1 unresolved / 0 text / 1 binary) and similarity score. -/
structure git_diff_delta where
  status : git_delta_t
  old : git_diff_file
  new : git_diff_file
  similarity : Nat
  binary : Int
deriving Repr, DecidableEq

/-- Hunk coordinates (`git_diff_range`); -1 means unparsed. -/
structure git_diff_range where
  old_start : Int
  old_lines : Int
  new_start : Int
  new_lines : Int
deriving Repr, DecidableEq

/-- Hunk callback type (`git_diff_hunk_fn`): delta, range, raw header
text with its length folded into the char list; returns a status. -/
abbrev hunk_fn := git_diff_delta → git_diff_range → List Char → Int

/-- Line callback type (`git_diff_line_fn`): delta, origin character,
content; returns a status. -/
abbrev line_fn := git_diff_delta → Char → List Char → Int

/-- File callback type (`git_diff_file_fn`); the C float progress
`index / deltas.length` is carried as the two integers. -/
abbrev file_fn := git_diff_delta → Nat → Nat → Int

/-- The characters of a string literal, used for raw output buffers. -/
def chars (s : String) : List Char := s.data

/-- `read_next_int`: scan forward to the next digit run (skipping any
non-digit characters, signs included), accumulate its decimal value,
and return the rest of the string, the value, and `GIT_SUCCESS` when at
least one digit was consumed (`GIT_ENOTFOUND` otherwise).  The value is
written even when no digit was found, as in the C code. -/
def skip_to_digit : List Char → List Char
  | [] => []
  | c :: rest => if c.isDigit then c :: rest else skip_to_digit rest

/-- The digit-run consumption loop of `read_next_int`: returns the
remaining characters, the accumulated value and the digit count. -/
def parse_digit_run : List Char → Nat → Nat → List Char × Nat × Nat
  | [], v, digits => ([], v, digits)
  | c :: rest, v, digits =>
    if c.isDigit then parse_digit_run rest (v * 10 + (c.toNat - '0'.toNat)) (digits + 1)
    else (c :: rest, v, digits)

/-- `read_next_int` itself: (remaining characters, parsed value, error). -/
def read_next_int (str : List Char) : List Char × Int × Int :=
  let scan := skip_to_digit str
  let (rest, v, digits) := parse_digit_run scan 0 0
  (rest, Int.ofNat v, if digits > 0 then GIT_SUCCESS else GIT_ENOTFOUND)

/-- Observable callback invocations and per-delta buffer releases, in
program order. -/
inductive diff_event where
  | file_ev (index : Nat) (delta : git_diff_delta)
  | hunk_ev (delta : git_diff_delta) (range : git_diff_range) (header : List Char)
  | line_ev (delta : git_diff_delta) (origin : Char) (content : List Char)
  | release_ev (index : Nat) (old_side : Bool)
deriving Repr, DecidableEq

/-- The hunk-header half of `diff_output_cb` (`len == 1 && info->hunk_cb`):
headers not starting with `@` are ignored; otherwise the four range
integers are parsed with `read_next_int` exactly as in the C code and
the hunk callback fires only when no parse step failed and both start
coordinates are non-negative.  Returns the resulting error and events. -/
def diff_output_hunk (hcb : hunk_fn) (delta : git_diff_delta) (buf0 : List Char) :
    Int × List diff_event :=
  if buf0.head? = some '@' then
    let (scan1, old_start, err1) := read_next_int buf0
    let (scan2, old_lines, err2) :=
      if err1 = GIT_SUCCESS ∧ scan1.head? = some ',' then
        let (s, v, e) := read_next_int scan1
        (s, v, e)
      else (scan1, 0, err1)
    let (scan3, new_start, err3) :=
      if err2 = GIT_SUCCESS then
        let (s, v, e) := read_next_int scan2
        (s, v, e)
      else (scan2, -1, err2)
    let (new_lines, err4) :=
      if err2 = GIT_SUCCESS ∧ err3 = GIT_SUCCESS ∧ scan3.head? = some ',' then
        let (_, v, e) := read_next_int scan3
        (v, e)
      else (0, err3)
    let range : git_diff_range := ⟨old_start, old_lines, new_start, new_lines⟩
    if err4 = GIT_SUCCESS ∧ 0 ≤ range.old_start ∧ 0 ≤ range.new_start then
      (hcb delta range buf0, [.hunk_ev delta range buf0])
    else (err4, [])
  else (GIT_SUCCESS, [])

/-- `diff_output_cb`: the xdiff output callback.  A one-part group is a
hunk header (when a hunk callback is registered); a two- or three-part
group is a line event (when a line callback is registered): part one's
first byte selects the origin, part two is the content, and a third
part is the eof-newline marker, reported through a second line callback
with the origin remapped, only if the first callback succeeded. -/
def diff_output_cb (hunk_cb : Option hunk_fn) (line_cb : Option line_fn)
    (delta : git_diff_delta) (bufs : List (List Char)) : Int × List diff_event :=
  match bufs, hunk_cb, line_cb with
  | [b0], some hcb, _ => diff_output_hunk hcb delta b0
  | [b0, b1], _, some lcb =>
    let origin :=
      if b0.head? = some '+' then GIT_DIFF_LINE_ADDITION
      else if b0.head? = some '-' then GIT_DIFF_LINE_DELETION
      else GIT_DIFF_LINE_CONTEXT
    (lcb delta origin b1, [.line_ev delta origin b1])
  | [b0, b1, b2], _, some lcb =>
    let origin :=
      if b0.head? = some '+' then GIT_DIFF_LINE_ADDITION
      else if b0.head? = some '-' then GIT_DIFF_LINE_DELETION
      else GIT_DIFF_LINE_CONTEXT
    let err := lcb delta origin b1
    if err = GIT_SUCCESS then
      let origin2 :=
        if origin = GIT_DIFF_LINE_ADDITION then GIT_DIFF_LINE_ADD_EOFNL
        else GIT_DIFF_LINE_DEL_EOFNL
      (lcb delta origin2 b2, [.line_ev delta origin b1, .line_ev delta origin2 b2])
    else (err, [.line_ev delta origin b1])
  | _, _, _ => (GIT_SUCCESS, [])

/-- Modelled from the spec: the external diff algorithm (`xdl_diff`) is
a black box that feeds each multi-part output group to the output
callback in order, aborting the remaining invocation as soon as a
callback returns non-success and propagating that result. -/
def xdl_diff_run (groups : List (List (List Char)))
    (outf : List (List Char) → Int × List diff_event) : Int × List diff_event :=
  match groups with
  | [] => (GIT_SUCCESS, [])
  | g :: rest =>
    let (e, evs) := outf g
    if e ≠ GIT_SUCCESS then (e, evs)
    else
      let (e2, evs2) := xdl_diff_run rest outf
      (e2, evs ++ evs2)

/-- Tri-state result of querying the attribute system for a path's
"diff" attribute (the `GIT_ATTR_TRUE` / `GIT_ATTR_FALSE` macro tests). -/
inductive git_attr_value where
  | attr_true | attr_false | attr_unspecified
deriving Repr, DecidableEq

/-- Diff options (`git_diff_options`).  The C `src_prefix`/`dst_prefix`
strings are the `srcpfx`/`dstpfx` fields here. -/
structure git_diff_options where
  flags : Nat
  context_lines : Nat
  interhunk_lines : Nat
  srcpfx : String
  dstpfx : String
deriving Repr

/-- Which iterator a side of the diff came from: the working directory
(`GIT_ITERATOR_WORKDIR`) or an object-store backed iterator. -/
inductive git_iterator_src where
  | workdir | tree
deriving Repr, DecidableEq

/-- The delta list (`git_diff_list`): options, delta vector and the
source kinds of the two sides.  The repository handle behind it is the
environment record below. -/
structure git_diff_list where
  opts : git_diff_options
  deltas : List git_diff_delta
  old_src : git_iterator_src
  new_src : git_iterator_src

/-- Filesystem collaborators used by `get_workdir_content`:
`git_buf_joinpath`, `p_readlink` (returning the link target) and
`git_futils_mmap_ro_file`. -/
structure fs_env where
  workdir : String
  joinpath : String → String → Except Int String
  readlink : String → Except Int (List Nat)
  mmap_ro : String → Except Int (List Nat)

/-- External collaborators of the engine: the attribute system
(`git_attr_get` on the "diff" attribute), the object store
(`git_blob_lookup` with `git_blob_rawcontent`/`rawsize`, and
`git_odb_hash`), the filesystem, the width of the platform `size_t`,
and the black-box diff algorithm's raw output for a pair of buffers. -/
structure diff_env where
  attr_diff : String → Except Int git_attr_value
  blob_lookup : Nat → Except Int (List Nat)
  odb_hash : List Nat → Except Int Nat
  fs : fs_env
  szbits : Nat
  xdiff_groups : List Nat → List Nat → List (List (List Char))

/-- `S_ISDIR` on a git file mode. -/
def S_ISDIR (mode : Nat) : Bool := mode &&& 0o170000 == 0o040000

/-- `S_ISLNK` on a git file mode. -/
def S_ISLNK (mode : Nat) : Bool := mode &&& 0o170000 == 0o120000

/-- The mmap-ability guard `(git_off_t)((size_t)size) == size`: the
declared size survives a round trip through the platform's
addressable-length type of width `szbits`.  File sizes are
non-negative, so this is exactly `0 ≤ size < 2 ^ szbits`. -/
def size_fits_size_t (szbits : Nat) (sz : Int) : Bool :=
  0 ≤ sz ∧ sz < (2 : Int) ^ szbits

/-- `set_file_is_binary_by_attr`: query the "diff" attribute for the
file's path; a false-like value marks the side binary, a true-like
value marks it not-binary, anything else leaves the flags alone. -/
def set_file_is_binary_by_attr (env : diff_env) (file : git_diff_file) :
    Int × git_diff_file :=
  match env.attr_diff file.path with
  | .error e => (e, file)
  | .ok v =>
    if v = .attr_false then
      (GIT_SUCCESS, { file with flags := file.flags ||| GIT_DIFF_FILE_BINARY })
    else if v = .attr_true then
      (GIT_SUCCESS, { file with flags := file.flags ||| GIT_DIFF_FILE_NOT_BINARY })
    else (GIT_SUCCESS, file)

/-- `set_delta_is_binary`: binary if either side carries the binary
flag, else not-binary if either side carries the not-binary flag, else
the tri-state is left untouched. -/
def set_delta_is_binary (delta : git_diff_delta) : git_diff_delta :=
  if delta.old.flags &&& GIT_DIFF_FILE_BINARY ≠ 0 ∨
     delta.new.flags &&& GIT_DIFF_FILE_BINARY ≠ 0 then
    { delta with binary := 1 }
  else if delta.old.flags &&& GIT_DIFF_FILE_NOT_BINARY ≠ 0 ∨
          delta.new.flags &&& GIT_DIFF_FILE_NOT_BINARY ≠ 0 then
    { delta with binary := 0 }
  else delta

/-- `file_is_binary_by_attr`: reset the tri-state, apply the
size-overflow guard and the force-text override, then query the
attribute for the old side; when the paths coincide the new side's
flags are combined with the C expression
`delta->new.flags &= (delta->old.flags & BINARY_DIFF_FLAGS)` instead of
a second query, and finally the delta tri-state is combined. -/
def file_is_binary_by_attr (env : diff_env) (diff : git_diff_list)
    (delta : git_diff_delta) : Int × git_diff_delta :=
  let delta := { delta with binary := -1 }
  if ¬ size_fits_size_t env.szbits delta.old.size ∨
     ¬ size_fits_size_t env.szbits delta.new.size then
    (GIT_SUCCESS,
      { delta with
          old := { delta.old with flags := delta.old.flags ||| GIT_DIFF_FILE_BINARY }
          new := { delta.new with flags := delta.new.flags ||| GIT_DIFF_FILE_BINARY }
          binary := 1 })
  else if diff.opts.flags &&& GIT_DIFF_FORCE_TEXT ≠ 0 then
    (GIT_SUCCESS,
      { delta with
          old := { delta.old with flags := delta.old.flags ||| GIT_DIFF_FILE_NOT_BINARY }
          new := { delta.new with flags := delta.new.flags ||| GIT_DIFF_FILE_NOT_BINARY }
          binary := 0 })
  else
    let (e1, old1) := set_file_is_binary_by_attr env delta.old
    let delta := { delta with old := old1 }
    if e1 ≠ GIT_SUCCESS then (e1, delta)
    else
      let mirror_new := delta.new.path = delta.old.path
      let (e2, delta) :=
        if mirror_new then
          (e1, { delta with new :=
            { delta.new with
                flags := delta.new.flags &&& (delta.old.flags &&& BINARY_DIFF_FLAGS) } })
        else
          let (e, new1) := set_file_is_binary_by_attr env delta.new
          (e, { delta with new := new1 })
      (e2, set_delta_is_binary delta)

/-- `file_is_binary_by_content`: for each side still undecided, sniff
for a NUL byte within the first `min length 4000` bytes
(`strnlen(data, search_len) != search_len`), then combine. -/
def file_is_binary_by_content (delta : git_diff_delta)
    (old_data new_data : List Nat) : Int × git_diff_delta :=
  let delta :=
    if delta.old.flags &&& BINARY_DIFF_FLAGS = 0 then
      let search_len := min old_data.length 4000
      if (old_data.take search_len).contains 0 then
        { delta with old := { delta.old with flags := delta.old.flags ||| GIT_DIFF_FILE_BINARY } }
      else
        { delta with old := { delta.old with flags := delta.old.flags ||| GIT_DIFF_FILE_NOT_BINARY } }
    else delta
  let delta :=
    if delta.new.flags &&& BINARY_DIFF_FLAGS = 0 then
      let search_len := min new_data.length 4000
      if (new_data.take search_len).contains 0 then
        { delta with new := { delta.new with flags := delta.new.flags ||| GIT_DIFF_FILE_BINARY } }
      else
        { delta with new := { delta.new with flags := delta.new.flags ||| GIT_DIFF_FILE_NOT_BINARY } }
    else delta
  (GIT_SUCCESS, set_delta_is_binary delta)

/-- `get_blob_content`: a zero identity yields success with the buffer
left empty and no blob handle; otherwise the blob is looked up and its
raw content aliased.  Returns (error, buffer, blob-handle-held). -/
def get_blob_content (lookup : Nat → Except Int (List Nat)) (oid : git_oid) :
    Int × List Nat × Bool :=
  if git_oid_iszero oid then (GIT_SUCCESS, [], false)
  else
    match lookup oid with
    | .error e => (e, [], false)
    | .ok bytes => (GIT_SUCCESS, bytes, true)

/-- `get_workdir_content`: join the path under the working directory;
a symlink side is marked heap-owned and binary and its target read
(a length mismatch is an I/O error, with the flags already set);
any other file is memory-mapped read-only, the map-owned flag being set
whether or not the mmap succeeded, as in the C code.  Out-of-memory on
the symlink buffer allocation is not modelled.
Returns (error, buffer, updated file). -/
def get_workdir_content (fs : fs_env) (file : git_diff_file) :
    Int × List Nat × git_diff_file :=
  match fs.joinpath fs.workdir file.path with
  | .error e => (e, [], file)
  | .ok full_path =>
    if S_ISLNK file.mode then
      let file := { file with
        flags := file.flags ||| GIT_DIFF_FILE_FREE_DATA ||| GIT_DIFF_FILE_BINARY }
      match fs.readlink full_path with
      | .error _ => (GIT_EOSERR, [], file)
      | .ok target =>
        let read_len : Int := min (Int.ofNat target.length) (file.size + 1)
        if read_len ≠ file.size then (GIT_EOSERR, [], file)
        else (GIT_SUCCESS, target.take read_len.toNat, file)
    else
      let file := { file with flags := file.flags ||| GIT_DIFF_FILE_UNMAP_DATA }
      match fs.mmap_ro full_path with
      | .error e => (e, [], file)
      | .ok bytes => (GIT_SUCCESS, bytes, file)

/-- `release_content`: free any blob handle; a heap-owned side is freed
and the heap flag cleared, else a map-owned side is unmapped and the
map flag cleared (xor clears the bit known to be set); idempotent. -/
def release_content (file : git_diff_file) : git_diff_file :=
  if file.flags &&& GIT_DIFF_FILE_FREE_DATA ≠ 0 then
    { file with flags := file.flags ^^^ GIT_DIFF_FILE_FREE_DATA }
  else if file.flags &&& GIT_DIFF_FILE_UNMAP_DATA ≠ 0 then
    { file with flags := file.flags ^^^ GIT_DIFF_FILE_UNMAP_DATA }
  else file

/-- The per-side content load in `git_diff_foreach`: working-directory
sides go through `get_workdir_content` (which may update the side's
flags), object-store sides through `get_blob_content` on the side's
identity.  Returns (error, buffer, updated side, blob-handle-held). -/
def load_side (env : diff_env) (src : git_iterator_src) (file : git_diff_file) :
    Int × List Nat × git_diff_file × Bool :=
  match src with
  | .workdir =>
    let (e, data, file) := get_workdir_content env.fs file
    (e, data, file, false)
  | .tree =>
    let (e, data, held) := get_blob_content env.blob_lookup file.oid
    (e, data, file, held)

/-- The body of one `git_diff_foreach` iteration from the
classification call down to the `cleanup` label (the releases
themselves are appended by `foreach_one`): classify by attribute, load
the old then the new side under the C guards, run the (dead, see the
`|||` below, written `|` in the C source) oid-reconciliation branch,
sniff when the tri-state is still unresolved, fire the file callback,
and unless the delta is binary or both buffers are empty hand the
buffers to the diff algorithm — whose result the C code discards.
Returns (error at cleanup, delta at cleanup, events so far). -/
def foreach_body (env : diff_env) (diff : git_diff_list)
    (file_cb : Option file_fn) (hunk_cb : Option hunk_fn) (line_cb : Option line_fn)
    (index total : Nat) (delta0 : git_diff_delta) :
    Int × git_diff_delta × List diff_event :=
  let (e_attr, delta) := file_is_binary_by_attr env diff delta0
  if e_attr < GIT_SUCCESS then (e_attr, delta, [])
  else
    -- map files: old side
    let (e_old, old_data, delta) :=
      if delta.binary ≠ 1 ∧ (hunk_cb.isSome ∨ line_cb.isSome) ∧
         (delta.status = .deleted ∨ delta.status = .modified) then
        let (e, data, oldf, _held) := load_side env diff.old_src delta.old
        (e, data, { delta with old := oldf })
      else (GIT_SUCCESS, [], delta)
    if e_old ≠ GIT_SUCCESS then (e_old, delta, [])
    else
      -- map files: new side, with the oid-reconciliation branch
      let (e_new, new_data, delta, reclassified) :=
        if delta.binary ≠ 1 ∧
           (hunk_cb.isSome ∨ line_cb.isSome ∨ git_oid_iszero delta.new.oid) ∧
           (delta.status = .added ∨ delta.status = .modified) then
          let (e, data, newf, _held) := load_side env diff.new_src delta.new
          let delta := { delta with new := newf }
          if e ≠ GIT_SUCCESS then (e, data, delta, false)
          else if (delta.new.flags ||| GIT_DIFF_FILE_VALID_OID) = 0 then
            match env.odb_hash data with
            | .error e2 => (e2, data, delta, false)
            | .ok h =>
              let delta := { delta with new := { delta.new with oid := h } }
              if git_oid_cmp delta.old.oid delta.new.oid = 0 then
                ((GIT_SUCCESS : Int), data,
                 { delta with status := .unmodified }, true)
              else (GIT_SUCCESS, data, delta, false)
          else (GIT_SUCCESS, data, delta, false)
        else (GIT_SUCCESS, [], delta, false)
      if e_new ≠ GIT_SUCCESS then (e_new, delta, [])
      else if reclassified then (GIT_SUCCESS, delta, [])
      else
        -- sniff the first 4K for nul bytes when still undecided
        let (e_sniff, delta) :=
          if delta.binary = -1 then file_is_binary_by_content delta old_data new_data
          else (GIT_SUCCESS, delta)
        if e_sniff < GIT_SUCCESS then (e_sniff, delta, [])
        else
          let (e_file, file_evs) :=
            match file_cb with
            | some fcb => (fcb delta index total, [diff_event.file_ev index delta])
            | none => ((GIT_SUCCESS : Int), [])
          if e_file ≠ GIT_SUCCESS then (e_file, delta, file_evs)
          else if delta.binary = 1 then (GIT_SUCCESS, delta, file_evs)
          else if old_data.length = 0 ∧ new_data.length = 0 then
            (GIT_SUCCESS, delta, file_evs)
          else
            let groups := env.xdiff_groups old_data new_data
            let (_e_xdl, xdl_evs) :=
              xdl_diff_run groups (diff_output_cb hunk_cb line_cb delta)
            -- the C code ignores the return value of xdl_diff
            (GIT_SUCCESS, delta, file_evs ++ xdl_evs)

/-- One full `git_diff_foreach` iteration: the three skip-checks
(`continue`, which bypasses the cleanup label entirely), then the body,
then the unconditional release of both sides at `cleanup`.
Returns (error, events, delta after release). -/
def foreach_one (env : diff_env) (diff : git_diff_list)
    (file_cb : Option file_fn) (hunk_cb : Option hunk_fn) (line_cb : Option line_fn)
    (index total : Nat) (delta : git_diff_delta) :
    Int × List diff_event × git_diff_delta :=
  if delta.status = .unmodified then (GIT_SUCCESS, [], delta)
  else if delta.status = .ignored ∧
          diff.opts.flags &&& GIT_DIFF_INCLUDE_IGNORED = 0 then
    (GIT_SUCCESS, [], delta)
  else if delta.status = .untracked ∧
          diff.opts.flags &&& GIT_DIFF_INCLUDE_UNTRACKED = 0 then
    (GIT_SUCCESS, [], delta)
  else
    let (e, delta, evs) :=
      foreach_body env diff file_cb hunk_cb line_cb index total delta
    let delta := { delta with
      old := release_content delta.old
      new := release_content delta.new }
    (e, evs ++ [.release_ev index true, .release_ev index false], delta)

/-- The delta loop of `git_diff_foreach`: iterate in order, breaking
right after the releases of the first delta whose iteration ended in a
non-success error, which the entry point then returns. -/
def git_diff_foreach_loop (env : diff_env) (diff : git_diff_list)
    (file_cb : Option file_fn) (hunk_cb : Option hunk_fn) (line_cb : Option line_fn)
    (total : Nat) : Nat → List git_diff_delta →
    Int × List diff_event × List git_diff_delta
  | _, [] => (GIT_SUCCESS, [], [])
  | index, d :: rest =>
    let (e, evs, d1) := foreach_one env diff file_cb hunk_cb line_cb index total d
    if e ≠ GIT_SUCCESS then (e, evs, d1 :: rest)
    else
      let (e2, evs2, ds) :=
        git_diff_foreach_loop env diff file_cb hunk_cb line_cb total (index + 1) rest
      (e2, evs ++ evs2, d1 :: ds)

/-- `git_diff_foreach`: drive every delta of the list through
classification, loading, the file callback and the hunk/line diff,
returning the first error (releases done) together with the observable
event trace and the final delta states. -/
def git_diff_foreach (env : diff_env) (diff : git_diff_list)
    (file_cb : Option file_fn) (hunk_cb : Option hunk_fn) (line_cb : Option line_fn) :
    Int × List diff_event × List git_diff_delta :=
  git_diff_foreach_loop env diff file_cb hunk_cb line_cb
    diff.deltas.length 0 diff.deltas

/-- `%o`: octal rendering of a mode, as a character list. -/
def octal (n : Nat) : List Char := Nat.toDigits 8 n

/-- `pick_suffix`: `/` for a directory, `*` for an executable mode
(the 0100 bit), otherwise a space character. -/
def pick_suffix (mode : Nat) : Char :=
  if S_ISDIR mode then '/'
  else if mode &&& 0o100 ≠ 0 then '*'
  else ' '

/-- The status code letter of `print_compact`; the NUL sentinel stands
for the C `code = 0` (unrecognized status, silently skipped). -/
def status_char (s : git_delta_t) : Char :=
  match s with
  | .added => 'A'
  | .deleted => 'D'
  | .modified => 'M'
  | .renamed => 'R'
  | .copied => 'C'
  | .ignored => 'I'
  | .untracked => '?'
  | _ => '\x00'

/-- The buffer built by `print_compact` for one delta (`none` when the
status code is zero and the delta is skipped): status code, tab, then
one of the four `git_buf_printf` formats of the C code. -/
def print_compact_buf (delta : git_diff_delta) : Option (List Char) :=
  let code := status_char delta.status
  if code = '\x00' then none
  else
    let old_suffix := pick_suffix delta.old.mode
    let new_suffix := pick_suffix delta.new.mode
    if delta.old.path ≠ delta.new.path then
      -- "%c\t%s%c -> %s%c\n"
      some ([code, '\t'] ++ delta.old.path.data ++ [old_suffix] ++ chars " -> " ++
            delta.new.path.data ++ [new_suffix, '\n'])
    else if delta.old.mode ≠ delta.new.mode ∧
            delta.old.mode ≠ 0 ∧ delta.new.mode ≠ 0 then
      -- "%c\t%s%c (%o -> %o)\n"
      some ([code, '\t'] ++ delta.old.path.data ++ [new_suffix] ++ chars " (" ++
            octal delta.old.mode ++ chars " -> " ++ octal delta.new.mode ++ chars ")\n")
    else if old_suffix ≠ ' ' then
      -- "%c\t%s%c\n"
      some ([code, '\t'] ++ delta.old.path.data ++ [old_suffix, '\n'])
    else
      -- "%c\t%s\n"
      some ([code, '\t'] ++ delta.old.path.data ++ ['\n'])

/-- `print_compact`: build the line and hand it to the print callback
tagged as a file header; an unrecognized status returns success with no
output. -/
def print_compact (print_cb : Char → List Char → Int) (delta : git_diff_delta) : Int :=
  match print_compact_buf delta with
  | none => GIT_SUCCESS
  | some buf => print_cb GIT_DIFF_LINE_FILE_HDR buf

/-- `git_oid_to_string` into a 8-byte buffer: the first seven
characters of the forty-character lowercase hex rendering. -/
def git_oid_tostr7 (oid : git_oid) : List Char :=
  let hex := Nat.toDigits 16 oid
  (List.replicate (40 - hex.length) '0' ++ hex).take 7

/-- `print_oid_range`: the index/mode block of the patch file header —
one `index a..b mode` line when the modes agree, else the
new-file-mode / deleted-file-mode / old-mode+new-mode lines followed by
a bare `index a..b` line. -/
def print_oid_range (delta : git_diff_delta) : List Char :=
  let start_oid := git_oid_tostr7 delta.old.oid
  let end_oid := git_oid_tostr7 delta.new.oid
  if delta.old.mode = delta.new.mode then
    chars "index " ++ start_oid ++ chars ".." ++ end_oid ++ [' '] ++
      octal delta.old.mode ++ ['\n']
  else
    (if delta.old.mode = 0 then
      chars "new file mode " ++ octal delta.new.mode ++ ['\n']
     else if delta.new.mode = 0 then
      chars "deleted file mode " ++ octal delta.old.mode ++ ['\n']
     else
      chars "old mode " ++ octal delta.old.mode ++ ['\n'] ++
      chars "new mode " ++ octal delta.new.mode ++ ['\n']) ++
    chars "index " ++ start_oid ++ chars ".." ++ end_oid ++ ['\n']

/-- `print_patch_file`: build the `diff --git` header and the
index/mode block, apply the `/dev/null` substitution exactly as the two
C `if` statements write it (both assign the old-side locals), append
the `--- `/`+++ ` lines unless the delta is binary, emit the file
header through the print callback, and for a binary delta follow with
the `Binary files ... differ` notice.  Returns the callback result and
the emitted (line-kind, text) pairs. -/
def print_patch_file (srcpfx dstpfx : String)
    (print_cb : Char → List Char → Int) (delta : git_diff_delta) :
    Int × List (Char × List Char) :=
  let oldpfx := srcpfx.data
  let oldpath := delta.old.path.data
  let newpfx := dstpfx.data
  let newpath := delta.new.path.data
  let buf := chars "diff --git " ++ srcpfx.data ++ delta.old.path.data ++ [' '] ++
             dstpfx.data ++ delta.new.path.data ++ ['\n'] ++
             print_oid_range delta
  let (oldpfx, oldpath) :=
    if git_oid_iszero delta.old.oid then ([], chars "/dev/null")
    else (oldpfx, oldpath)
  let (oldpfx, oldpath) :=
    if git_oid_iszero delta.new.oid then ([], chars "/dev/null")
    else (oldpfx, oldpath)
  let buf :=
    if delta.binary ≠ 1 then
      buf ++ chars "--- " ++ oldpfx ++ oldpath ++ ['\n'] ++
      chars "+++ " ++ newpfx ++ newpath ++ ['\n']
    else buf
  let e1 := print_cb GIT_DIFF_LINE_FILE_HDR buf
  if e1 ≠ GIT_SUCCESS ∨ delta.binary ≠ 1 then
    (e1, [(GIT_DIFF_LINE_FILE_HDR, buf)])
  else
    let buf2 := chars "Binary files " ++ oldpfx ++ oldpath ++ chars " and " ++
                newpfx ++ newpath ++ chars " differ\n"
    (print_cb GIT_DIFF_LINE_BINARY buf2,
     [(GIT_DIFF_LINE_FILE_HDR, buf), (GIT_DIFF_LINE_BINARY, buf2)])

/-- A raw xdiff buffer (`mmfile_t`), keeping track of whether the C
pointer is NULL — in `git_diff_blobs` it never is, because an absent
blob's pointer is replaced with the literal empty string. -/
structure mmfile_t where
  ptr_null : Bool
  bytes : List Nat
deriving Repr, DecidableEq

/-- A blob handle: its object id and raw content. -/
structure git_blob where
  oid : git_oid
  content : List Nat
deriving Repr, DecidableEq

/-- `git_object_id` on a possibly-NULL blob handle; the C code
dereferences a NULL handle here, modelled as the zero id. -/
def git_object_id_of : Option git_blob → git_oid
  | some b => b.oid
  | none => 0

/-- The `mmfile_t` set up by `git_diff_blobs` for one side: the blob's
raw content, or a (non-NULL) pointer to the empty string when the blob
handle is absent. -/
def blobs_mmfile : Option git_blob → mmfile_t
  | some b => ⟨false, b.content⟩
  | none => ⟨false, []⟩

/-- The "fake" delta record populated by `git_diff_blobs`: the status
ternary tests the mmfile pointers for NULL (they never are), both modes
are 0100644, the identities are copied from the blob handles, the paths
are NULL (modelled as empty strings) — and the `binary` field is never
assigned, so it holds whatever was on the stack (`junk_binary`). -/
def blobs_fake_delta (old_blob new_blob : Option git_blob)
    (junk_binary : Int) : git_diff_delta :=
  let old := blobs_mmfile old_blob
  let new := blobs_mmfile new_blob
  { status :=
      if ¬ old.ptr_null then
        (if ¬ new.ptr_null then .modified else .deleted)
      else
        (if ¬ new.ptr_null then .added else .untracked)
    old := { oid := git_object_id_of old_blob, path := "", size := 0,
             flags := 0, mode := 0o100644 }
    new := { oid := git_object_id_of new_blob, path := "", size := 0,
             flags := 0, mode := 0o100644 }
    similarity := 0
    binary := junk_binary }

/-- `git_diff_blobs`: optionally swap the two blobs under the reverse
flag, set up the two raw buffers (absent means empty), synthesize the
fake delta, and invoke the diff algorithm directly with
`diff_output_cb`; the algorithm's result is discarded and the entry
point returns `GIT_SUCCESS` unconditionally. -/
def git_diff_blobs (options : Option git_diff_options)
    (old_blob new_blob : Option git_blob)
    (hunk_cb : Option hunk_fn) (line_cb : Option line_fn)
    (xdiff_groups : List Nat → List Nat → List (List (List Char)))
    (junk_binary : Int) : Int × List diff_event :=
  let (old_blob, new_blob) :=
    match options with
    | some o =>
      if o.flags &&& GIT_DIFF_REVERSE ≠ 0 then (new_blob, old_blob)
      else (old_blob, new_blob)
    | none => (old_blob, new_blob)
  let old := blobs_mmfile old_blob
  let new := blobs_mmfile new_blob
  let delta := blobs_fake_delta old_blob new_blob junk_binary
  let groups := xdiff_groups old.bytes new.bytes
  let (_e_xdl, evs) := xdl_diff_run groups (diff_output_cb hunk_cb line_cb delta)
  (GIT_SUCCESS, evs)

/-! Concrete fixtures shared by the witnesses and counterexamples. -/

/-- A sample text delta used as concrete input by several theorems. -/
def delta0 : git_diff_delta :=
  { status := .modified
    old := { oid := 1, path := "f.txt", size := 1, flags := 0, mode := 0o100644 }
    new := { oid := 2, path := "f.txt", size := 1, flags := 0, mode := 0o100644 }
    similarity := 0
    binary := 0 }

/-- A hunk callback that always succeeds. -/
def hcb0 : hunk_fn := fun _ _ _ => GIT_SUCCESS

/-- A line callback that always succeeds. -/
def lcb0 : line_fn := fun _ _ _ => GIT_SUCCESS

/-- A line callback that always fails with the generic error -1. -/
def lcb_fail : line_fn := fun _ _ _ => -1

/-- A file callback that always succeeds. -/
def fcb0 : file_fn := fun _ _ _ => GIT_SUCCESS

/-- A print callback that always succeeds. -/
def pcb0 : Char → List Char → Int := fun _ _ => GIT_SUCCESS

/-- Recognizer for file-callback events. -/
def is_file_ev : diff_event → Bool
  | .file_ev .. => true
  | _ => false

/-- Recognizer for line-callback events. -/
def is_line_ev : diff_event → Bool
  | .line_ev .. => true
  | _ => false

/-- Recognizer for release events. -/
def is_release_ev : diff_event → Bool
  | .release_ev .. => true
  | _ => false

/-- A sample blob, content "A\n". -/
def blobA : git_blob := { oid := 11, content := [65, 10] }

/-- A second sample blob, content "B\n". -/
def blobB : git_blob := { oid := 12, content := [66, 10] }

/-- A diff-algorithm output of a single deleted line. -/
def groups_del : List Nat → List Nat → List (List (List Char)) :=
  fun _ _ => [[chars "-", chars "A"]]

/-- A diff-algorithm output of a single context line. -/
def groups_ctx : List Nat → List Nat → List (List (List Char)) :=
  fun _ _ => [[chars " ", chars "A"]]

/-- A delta whose new-side identity is the absent sentinel while the
old side is present, as a deletion renders in the patch output. -/
def delta4 : git_diff_delta :=
  { status := .deleted
    old := { oid := 5, path := "f.txt", size := 1, flags := 0, mode := 0o100644 }
    new := { oid := 0, path := "f.txt", size := 0, flags := 0, mode := 0o100644 }
    similarity := 0
    binary := 0 }

/-- A delta whose two sides share one path, with a definitive-identity
flag already set on the new side. -/
def delta5 : git_diff_delta :=
  { status := .modified
    old := { oid := 7, path := "same.bin", size := 4, flags := 0, mode := 0o100644 }
    new := { oid := 8, path := "same.bin", size := 4,
             flags := GIT_DIFF_FILE_VALID_OID, mode := 0o100644 }
    similarity := 0
    binary := -1 }

/-- An environment whose attribute system declares path `same.bin`
binary (false-like "diff" attribute) and everything else unspecified. -/
def env5 : diff_env :=
  { attr_diff := fun p =>
      if p = "same.bin" then .ok .attr_false else .ok .attr_unspecified
    blob_lookup := fun _ => .error GIT_ENOTFOUND
    odb_hash := fun _ => .error GIT_ENOTFOUND
    fs := { workdir := "/w"
            joinpath := fun a b => .ok (a ++ "/" ++ b)
            readlink := fun _ => .error (-1)
            mmap_ro := fun _ => .error (-1) }
    szbits := 64
    xdiff_groups := fun _ _ => [] }

/-- The delta list around `delta5`, with no option flags set. -/
def diff5 : git_diff_list :=
  { opts := { flags := 0, context_lines := 3, interhunk_lines := 3,
              srcpfx := "a/", dstpfx := "b/" }
    deltas := [delta5]
    old_src := .tree
    new_src := .tree }

/-- A modified delta whose new-side identity is the absent sentinel and
whose new side lacks the definitive-identity flag. -/
def delta2 : git_diff_delta :=
  { status := .modified
    old := { oid := 5, path := "w.txt", size := 1,
             flags := GIT_DIFF_FILE_VALID_OID, mode := 0o100644 }
    new := { oid := 0, path := "w.txt", size := 1, flags := 0, mode := 0o100644 }
    similarity := 0
    binary := 0 }

/-- An environment where the working-directory content of `w.txt`
equals the old blob's content, and hashing that content yields exactly
the old identity — the situation oid-reconciliation exists for. -/
def env2 : diff_env :=
  { attr_diff := fun _ => .ok .attr_unspecified
    blob_lookup := fun oid => if oid = 5 then .ok [65] else .error GIT_ENOTFOUND
    odb_hash := fun _ => .ok 5
    fs := { workdir := "/w"
            joinpath := fun a b => .ok (a ++ "/" ++ b)
            readlink := fun _ => .error (-1)
            mmap_ro := fun _ => .ok [65] }
    szbits := 64
    xdiff_groups := fun o n => if o = n then [] else [[chars " ", chars "A"]] }

/-- The delta list around `delta2`: old side from the object store, new
side from the working directory. -/
def diff2 : git_diff_list :=
  { opts := { flags := 0, context_lines := 3, interhunk_lines := 3,
              srcpfx := "a/", dstpfx := "b/" }
    deltas := [delta2]
    old_src := .tree
    new_src := .workdir }

/-- Two modified text deltas backed by four distinct blobs. -/
def deltaA : git_diff_delta :=
  { status := .modified
    old := { oid := 1, path := "a.txt", size := 1,
             flags := GIT_DIFF_FILE_VALID_OID, mode := 0o100644 }
    new := { oid := 2, path := "a.txt", size := 1,
             flags := GIT_DIFF_FILE_VALID_OID, mode := 0o100644 }
    similarity := 0
    binary := 0 }

/-- The second delta of the C1 scenario. -/
def deltaB : git_diff_delta :=
  { status := .modified
    old := { oid := 3, path := "b.txt", size := 1,
             flags := GIT_DIFF_FILE_VALID_OID, mode := 0o100644 }
    new := { oid := 4, path := "b.txt", size := 1,
             flags := GIT_DIFF_FILE_VALID_OID, mode := 0o100644 }
    similarity := 0
    binary := 0 }

/-- An environment on which xdiff would emit two context-line groups
for every delta of the C1 scenario. -/
def env1 : diff_env :=
  { attr_diff := fun _ => .ok .attr_unspecified
    blob_lookup := fun oid =>
      if oid = 1 then .ok [65] else if oid = 2 then .ok [66]
      else if oid = 3 then .ok [67] else if oid = 4 then .ok [68]
      else .error GIT_ENOTFOUND
    odb_hash := fun _ => .error GIT_ENOTFOUND
    fs := { workdir := "/w"
            joinpath := fun a b => .ok (a ++ "/" ++ b)
            readlink := fun _ => .error (-1)
            mmap_ro := fun _ => .error (-1) }
    szbits := 64
    xdiff_groups := fun _ _ => [[chars " ", chars "l1"], [chars " ", chars "l2"]] }

/-- The two-delta list of the C1 scenario. -/
def diff1 : git_diff_list :=
  { opts := { flags := 0, context_lines := 3, interhunk_lines := 3,
              srcpfx := "a/", dstpfx := "b/" }
    deltas := [deltaA, deltaB]
    old_src := .tree
    new_src := .tree }

/-- A rename with unchanged non-executable mode. -/
def delta9r : git_diff_delta :=
  { status := .renamed
    old := { oid := 21, path := "old/path", size := 1, flags := 0, mode := 0o100644 }
    new := { oid := 21, path := "new/path", size := 1, flags := 0, mode := 0o100644 }
    similarity := 90
    binary := 0 }

/-- A same-path mode change 100644 → 100755. -/
def delta9m : git_diff_delta :=
  { status := .modified
    old := { oid := 22, path := "path", size := 1, flags := 0, mode := 0o100644 }
    new := { oid := 23, path := "path", size := 1, flags := 0, mode := 0o100755 }
    similarity := 0
    binary := 0 }

/-- `skip_to_digit` consumes everything when the input holds no digit. -/
theorem skip_to_digit_of_no_digit (l : List Char) (h : ∀ c ∈ l, c.isDigit = false) :
    skip_to_digit l = [] := by
  induction l with
  | nil => rfl
  | cons c rest ih =>
    rw [skip_to_digit, if_neg]
    · exact ih fun x hx => h x (List.mem_cons_of_mem _ hx)
    · simp [h c (List.mem_cons_self _ _)]

/-- `read_next_int` on a digit-free input fails with `GIT_ENOTFOUND`,
still writing value 0. -/
theorem read_next_int_of_no_digit (l : List Char) (h : ∀ c ∈ l, c.isDigit = false) :
    read_next_int l = ([], 0, GIT_ENOTFOUND) := by
  rw [read_next_int, skip_to_digit_of_no_digit l h]
  rfl

/-- C8: hunk-header parsing scans to each next digit run skipping
non-digits, a missing comma-count stays 0: `@@ -3,5 +3,6 @@` parses to
range {3,5,3,6}, `@@ -0,0 +1 @@` to {0,0,1,0} (both handed to the hunk
callback with the raw header), and a header with no digit run produces
no hunk callback. -/
theorem C8_hunk_header_parsing :
    (∀ (hcb : hunk_fn) (d : git_diff_delta),
       diff_output_cb (some hcb) none d [chars "@@ -3,5 +3,6 @@"] =
         (hcb d ⟨3, 5, 3, 6⟩ (chars "@@ -3,5 +3,6 @@"),
          [.hunk_ev d ⟨3, 5, 3, 6⟩ (chars "@@ -3,5 +3,6 @@")])) ∧
    (∀ (hcb : hunk_fn) (d : git_diff_delta),
       diff_output_cb (some hcb) none d [chars "@@ -0,0 +1 @@"] =
         (hcb d ⟨0, 0, 1, 0⟩ (chars "@@ -0,0 +1 @@"),
          [.hunk_ev d ⟨0, 0, 1, 0⟩ (chars "@@ -0,0 +1 @@")])) ∧
    (∀ (hcb : hunk_fn) (d : git_diff_delta),
       diff_output_cb (some hcb) none d [chars "@@ -x,y +z @@"] =
         (GIT_ENOTFOUND, [])) :=
  ⟨fun _ _ => rfl, fun _ _ => rfl, fun _ _ => rfl⟩

/-- Witness for C8 at a concrete always-succeeding hunk callback. -/
theorem C8_hunk_header_parsing_witness :
    diff_output_cb (some hcb0) none delta0 [chars "@@ -3,5 +3,6 @@"] =
      (GIT_SUCCESS, [.hunk_ev delta0 ⟨3, 5, 3, 6⟩ (chars "@@ -3,5 +3,6 @@")]) ∧
    diff_output_cb (some hcb0) none delta0 [chars "@@ -0,0 +1 @@"] =
      (GIT_SUCCESS, [.hunk_ev delta0 ⟨0, 0, 1, 0⟩ (chars "@@ -0,0 +1 @@")]) ∧
    diff_output_cb (some hcb0) none delta0 [chars "@@ -x,y +z @@"] =
      (GIT_ENOTFOUND, []) :=
  ⟨C8_hunk_header_parsing.1 hcb0 delta0,
   C8_hunk_header_parsing.2.1 hcb0 delta0,
   C8_hunk_header_parsing.2.2 hcb0 delta0⟩

/-- C10: a three-part line event whose first byte is neither `+` nor
`-` is a context line; once the primary context callback succeeds, the
eof-marker callback fires with origin `GIT_DIFF_LINE_DEL_EOFNL` — the
same origin used for a deletion's marker, not a context-specific one. -/
theorem C10_context_line_eof_marker (lcb : line_fn) (d : git_diff_delta)
    (b0 b1 b2 : List Char)
    (h0 : b0.head? ≠ some '+') (h1 : b0.head? ≠ some '-')
    (hok : lcb d GIT_DIFF_LINE_CONTEXT b1 = GIT_SUCCESS) :
    diff_output_cb none (some lcb) d [b0, b1, b2] =
      (lcb d GIT_DIFF_LINE_DEL_EOFNL b2,
       [.line_ev d GIT_DIFF_LINE_CONTEXT b1,
        .line_ev d GIT_DIFF_LINE_DEL_EOFNL b2]) := by
  have hca : GIT_DIFF_LINE_CONTEXT ≠ GIT_DIFF_LINE_ADDITION := by decide
  simp [diff_output_cb, h0, h1, hok, hca]

/-- Witness for C10 at a concrete context-line event. -/
theorem C10_context_line_eof_marker_witness :
    diff_output_cb none (some lcb0) delta0 [chars " ", chars "ctx", chars "marker"] =
      (GIT_SUCCESS,
       [.line_ev delta0 GIT_DIFF_LINE_CONTEXT (chars "ctx"),
        .line_ev delta0 GIT_DIFF_LINE_DEL_EOFNL (chars "marker")]) :=
  C10_context_line_eof_marker lcb0 delta0 _ _ _ (by decide) (by decide) rfl

/-- C6 counterexample: a hunk header that cannot be parsed (no digit
run) makes the output callback return `GIT_ENOTFOUND`, not success as
the claim states; no hunk callback fires. -/
theorem C6_counterexample :
    diff_output_cb (some hcb0) none delta0 [chars "@@ -x,y +z @@"] =
      (GIT_ENOTFOUND, []) ∧ GIT_ENOTFOUND ≠ GIT_SUCCESS := by decide

/-- C6 amended: a raw hunk-header unit not beginning with `@` is
silently dropped (success, no hunk callback); a unit beginning with `@`
that holds no digit run fires no hunk callback either, but the output
callback returns `GIT_ENOTFOUND` instead of success, so the algorithm
invocation for that delta is aborted rather than continuing in degraded
mode. -/
theorem C6_amended (hcb : hunk_fn) (d : git_diff_delta) (buf : List Char) :
    (buf.head? ≠ some '@' →
       diff_output_cb (some hcb) none d [buf] = (GIT_SUCCESS, [])) ∧
    (buf.head? = some '@' → (∀ c ∈ buf, c.isDigit = false) →
       diff_output_cb (some hcb) none d [buf] = (GIT_ENOTFOUND, [])) := by
  constructor
  · intro h
    simp [diff_output_cb, diff_output_hunk, h]
  · intro h hd
    simp [diff_output_cb, diff_output_hunk, h, read_next_int_of_no_digit buf hd,
      GIT_SUCCESS, GIT_ENOTFOUND]

/-- Witness for C6 at the two concrete header shapes. -/
theorem C6_amended_witness :
    diff_output_cb (some hcb0) none delta0 [chars "zz"] = (GIT_SUCCESS, []) ∧
    diff_output_cb (some hcb0) none delta0 [chars "@@ four @@"] =
      (GIT_ENOTFOUND, []) :=
  ⟨(C6_amended hcb0 delta0 (chars "zz")).1 (by decide),
   (C6_amended hcb0 delta0 (chars "@@ four @@")).2 (by decide) (by decide)⟩

/-- C3: the pairwise blob diff replaces an absent blob's buffer pointer
with the (non-NULL) empty string before the status ternary tests those
pointers for NULL, so the synthesized status is `modified` in all four
presence combinations — never `deleted`, `added` or `untracked` — and
that is the status the callbacks observe. -/
theorem C3_blob_status_always_modified :
    (blobs_fake_delta (some blobA) none 0).status = .modified ∧
    (blobs_fake_delta none (some blobB) 0).status = .modified ∧
    (blobs_fake_delta none none 0).status = .modified ∧
    git_delta_t.modified ≠ .deleted ∧
    git_delta_t.modified ≠ .added ∧
    git_delta_t.modified ≠ .untracked ∧
    (git_diff_blobs none (some blobA) none none (some lcb0) groups_del 0).2.map
        (fun e => match e with
          | .line_ev d _ _ => some d.status
          | _ => none) = [some .modified] := by decide

/-- C4: when the new identity is the absent sentinel (old present), the
patch renderer substitutes `/dev/null` into the OLD side, so the header
reads `--- /dev/null` and `+++ <dst_prefix><new path>` — not
`--- <src_prefix><old path>` and `+++ /dev/null` as the claim states. -/
theorem C4_devnull_on_wrong_side :
    (print_patch_file "a/" "b/" pcb0 delta4).2 =
      [(GIT_DIFF_LINE_FILE_HDR,
        chars "diff --git a/f.txt b/f.txt\nindex 0000000..0000000 100644\n--- /dev/null\n+++ b/f.txt\n")] ∧
    (print_patch_file "a/" "b/" pcb0 delta4).2 ≠
      [(GIT_DIFF_LINE_FILE_HDR,
        chars "diff --git a/f.txt b/f.txt\nindex 0000000..0000000 100644\n--- a/f.txt\n+++ /dev/null\n")] := by
  decide

/-- C5: with equal paths the attribute phase runs the C statement
`delta->new.flags &= (delta->old.flags & BINARY_DIFF_FLAGS)`: the old
side is resolved binary by its query, but the new side's flags are
masked down to 0 — it does not inherit the binary flag (and its
definitive-identity bit is destroyed), whereas its own query on the
same path would have resolved it binary. -/
theorem C5_mirror_masks_new_flags :
    ((file_is_binary_by_attr env5 diff5 delta5).2.old.flags &&&
        GIT_DIFF_FILE_BINARY ≠ 0) ∧
    ((file_is_binary_by_attr env5 diff5 delta5).2.new.flags = 0) ∧
    ((set_file_is_binary_by_attr env5 delta5.new).2.flags &&&
        GIT_DIFF_FILE_BINARY ≠ 0) ∧
    delta5.new.flags ≠ 0 := by decide

/-- C7: `git_diff_blobs` never assigns the `binary` field of its
stack-allocated fake delta, so with -1 as the junk value left on the
stack a line callback fires while the delta's binary tri-state is still
the unresolved sentinel, violating the invariant. -/
theorem C7_blobs_binary_unresolved :
    (git_diff_blobs none (some blobA) (some blobB) none (some lcb0)
        groups_ctx (-1)).2 =
      [.line_ev (blobs_fake_delta (some blobA) (some blobB) (-1))
        GIT_DIFF_LINE_CONTEXT (chars "A")] ∧
    (blobs_fake_delta (some blobA) (some blobB) (-1)).binary = -1 := by decide

/-- C2: the guard `(delta->new.flags | GIT_DIFF_FILE_VALID_OID) == 0`
is never true (the flag is a nonzero bit), so although the new identity
is absent and its content was loaded and hashes to the old identity,
the hash is never computed: the delta keeps status `modified` instead
of being reclassified `unmodified`, the sniff still runs (the new side
ends up flagged not-binary) and the file callback still fires. -/
theorem C2_oid_reconciliation_dead :
    (∀ flags : Nat, flags ||| GIT_DIFF_FILE_VALID_OID ≠ 0) ∧
    env2.odb_hash [65] = .ok delta2.old.oid ∧
    git_oid_iszero delta2.new.oid = true ∧
    (git_diff_foreach env2 diff2 (some fcb0) none (some lcb0)).2.2.map
        git_diff_delta.status = [.modified] ∧
    (git_diff_foreach env2 diff2 (some fcb0) none (some lcb0)).2.2.map
        (fun d => d.new.flags &&& GIT_DIFF_FILE_NOT_BINARY) =
      [GIT_DIFF_FILE_NOT_BINARY] ∧
    (git_diff_foreach env2 diff2 (some fcb0) none (some lcb0)).2.1.countP
        is_file_ev = 1 := by
  refine ⟨fun flags h => ?_, rfl, by decide, by decide, by decide, by decide⟩
  have h1 : (flags ||| GIT_DIFF_FILE_VALID_OID) % 2 = 1 := by
    have : (flags ||| GIT_DIFF_FILE_VALID_OID).testBit 0 = true := by
      simp [Nat.testBit_or, GIT_DIFF_FILE_VALID_OID]
    simpa [Nat.testBit_zero] using this
  rw [h] at h1
  simp at h1

/-- C1: with a line callback that always fails, the failure does abort
the remaining output of the current delta (one of the two line groups
fires per delta) and the buffers are released, but `git_diff_foreach`
discards `xdl_diff`'s result: the file and line callbacks still fire
for the later delta (two file events, a line event on each delta) and
the entry point returns `GIT_SUCCESS` instead of the first error. -/
theorem C1_callback_error_swallowed :
    (git_diff_foreach env1 diff1 (some fcb0) none (some lcb_fail)).1 =
      GIT_SUCCESS ∧
    lcb_fail delta0 ' ' [] ≠ GIT_SUCCESS ∧
    (git_diff_foreach env1 diff1 (some fcb0) none (some lcb_fail)).2.1.countP
      is_file_ev = 2 ∧
    (git_diff_foreach env1 diff1 (some fcb0) none (some lcb_fail)).2.1.countP
      is_line_ev = 2 ∧
    (git_diff_foreach env1 diff1 (some fcb0) none (some lcb_fail)).2.1.countP
      is_release_ev = 4 := by decide

/-- C9 counterexample: on a rename with unchanged mode 100644 the
compact renderer prints the space suffix of each non-executable
non-directory side, yielding `R\told/path␣ -> new/path␣` — not
`R\told/path -> new/path` as the claim states. -/
theorem C9_counterexample :
    print_compact_buf delta9r ≠ some (chars "R\told/path -> new/path\n") ∧
    print_compact_buf delta9r = some (chars "R\told/path  -> new/path \n") := by
  decide

/-- The octal rendering of mode 100644. -/
theorem octal_100644 : octal 0o100644 = chars "100644" := by decide

/-- The octal rendering of mode 100755. -/
theorem octal_100755 : octal 0o100755 = chars "100755" := by decide

/-- C9 amended: one line per rendered delta — status letter, tab, old
path and a one-character suffix where a plain file's suffix is a SPACE
(suffixes are printed verbatim in the paths-differ and modes-differ
branches and only a lone trailing space form is suppressed): a rename
with unchanged mode 100644 prints `R\told/path␣ -> new/path␣`, and a
mode change 100644→100755 on one path prints
`M\tpath* (100644 -> 100755)`. -/
theorem C9_amended :
    (∀ d : git_diff_delta, d.status = .renamed → d.old.path ≠ d.new.path →
       d.old.mode = 0o100644 → d.new.mode = 0o100644 →
       print_compact_buf d =
         some (chars "R\t" ++ d.old.path.data ++ chars "  -> " ++
               d.new.path.data ++ chars " \n")) ∧
    (∀ d : git_diff_delta, d.status = .modified → d.old.path = d.new.path →
       d.old.mode = 0o100644 → d.new.mode = 0o100755 →
       print_compact_buf d =
         some (chars "M\t" ++ d.old.path.data ++
               chars "* (100644 -> 100755)\n")) := by
  constructor
  · intro d hs hp hom hnm
    simp [print_compact_buf, status_char, hs, hp, pick_suffix, hom, hnm,
      S_ISDIR, chars]
    decide
  · intro d hs hp hom hnm
    simp [print_compact_buf, status_char, hs, hp, pick_suffix, hom, hnm,
      S_ISDIR, chars, octal_100644, octal_100755]
    decide

/-- Witness for C9 at the two concrete deltas. -/
theorem C9_amended_witness :
    print_compact_buf delta9r = some (chars "R\told/path  -> new/path \n") ∧
    print_compact_buf delta9m = some (chars "M\tpath* (100644 -> 100755)\n") :=
  ⟨C9_amended.1 delta9r rfl (by decide) rfl rfl,
   C9_amended.2 delta9m rfl rfl rfl rfl⟩

end DiffOutput
